import Mathlib

/-!
Verification of the webparse HTML metadata extractor (`src/__init__.py`)
against its natural-language specification.

The development is a shallow embedding of the Python source:
* Python exceptions become an explicit error type `PyErr`, and every
  fallible Python function becomes a Lean function into `Except PyErr _`.
  The embedding distinguishes the source's own `ParseError` hierarchy
  from Python builtin exceptions (`TypeError`, `AttributeError`,
  `KeyError`, JSON decode failures), because the source's recovery
  handlers catch only `ParseError` subclasses.
* The mutable result dictionary becomes the `Info` structure (with
  `Option` fields for "key present" checks and list fields for the
  append-only lists; a missing list key and an empty list are
  observationally identical in the source, which only ever appends).
* External collaborators that the spec declares out of scope (the HTML
  tokenizer `html.parser`, `json.loads`, `urllib.parse.urljoin`) are
  passed in as an explicit capability record `Collab`.
* Recursion that Python expresses as `while` loops or recursive calls is
  given an explicit fuel parameter; running out of fuel is the distinct
  error `PyErr.outOfFuel`, which no handler catches, and concrete runs
  are given ample fuel.
-/

/-- Embedding of the exceptions that can be raised while parsing.
The first five constructors model the source's own `ParseError`
hierarchy (`UnrecognizedPreambleError < UnrecognizedDataError <
ParseError`, `UnexpectedDataError < ParseError`,
`UnexpectedEndOfFileError < ParseError`).  The remaining constructors
model Python builtin exceptions that are *not* `ParseError` and hence
escape every `except ParseError` handler in the source.  Message
payloads are dropped: they never influence control flow. -/
inductive PyErr where
  | unrecognizedData
  | unrecognizedPreamble
  | unexpectedData
  | unexpectedEndOfFile
  | parseError
  | typeError
  | attributeError
  | keyError
  | indexError
  | jsonDecodeError
  | outOfFuel
deriving DecidableEq, Repr

/-- `isinstance(e, UnrecognizedDataError)` for the embedded errors. -/
def PyErr.isUnrecognizedData : PyErr → Bool
  | .unrecognizedData => true
  | .unrecognizedPreamble => true
  | _ => false

/-- `isinstance(e, ParseError)` for the embedded errors.  `TypeError`,
`AttributeError`, `KeyError`, `IndexError` and `json.JSONDecodeError`
(a `ValueError`) are not `ParseError` subclasses in the source. -/
def PyErr.isParseError : PyErr → Bool
  | .unrecognizedData => true
  | .unrecognizedPreamble => true
  | .unexpectedData => true
  | .unexpectedEndOfFile => true
  | .parseError => true
  | _ => false

/-- Decoded JSON values, as produced by the external `json.loads`
collaborator (dicts keep insertion order; keys are unique because
`json.loads` deduplicates them). -/
inductive Json where
  | null
  | bool (b : Bool)
  | num (n : Int)
  | str (s : String)
  | arr (elems : List Json)
  | obj (fields : List (String × Json))

/-- Python `x in l` for a list of strings (`__eq__`-based membership). -/
def pyIn (x : String) (l : List String) : Bool :=
  l.any (fun y => y == x)

/-- Python ASCII whitespace as used by `str.strip` / `str.isspace`
(the source's inputs are ASCII; non-ASCII whitespace is not modelled). -/
def pyIsSpaceChar (c : Char) : Bool :=
  c == ' ' || c == '\t' || c == '\n' || c == '\x0b' || c == '\x0c' || c == '\r'

/-- Python `str.strip()`. -/
def pyStrip (s : String) : String :=
  String.mk (((s.data.dropWhile pyIsSpaceChar).reverse.dropWhile pyIsSpaceChar).reverse)

/-- Python `str.isspace()`: true iff nonempty and all whitespace. -/
def pyStrIsSpace (s : String) : Bool :=
  !s.data.isEmpty && s.data.all pyIsSpaceChar

/-- Python `str.endswith(suffix)`. -/
def pyEndsWith (s suffix : String) : Bool :=
  List.isSuffixOf suffix.data s.data

/-- One insertion step of Python `dict(seq)`: a repeated key overwrites
the value at the key's first position, a fresh key is appended. -/
def pyDictInsert (l : List (String × String)) (kv : String × String) :
    List (String × String) :=
  if l.any (fun p => p.1 == kv.1) then
    l.map (fun p => if p.1 == kv.1 then (p.1, kv.2) else p)
  else l ++ [kv]

/-- Python `dict(attr_seq)`: insertion order, last value wins. -/
def pyDict (l : List (String × String)) : List (String × String) :=
  l.foldl pyDictInsert []

/-- Python `d.get(k)` on a dict with unique keys. -/
def pyDictGet (d : List (String × String)) (k : String) : Option String :=
  (d.find? (fun p => p.1 == k)).map (fun p => p.2)

/-- Python `a or b` on optional strings: `None` and `''` are falsy. -/
def pyOrStr (a b : Option String) : Option String :=
  match a with
  | some s => if s == "" then b else some s
  | none => b

/-- ASCII lowercasing of a byte, as done by `bytes.lower()`. -/
def byteLower (b : Nat) : Nat :=
  if 65 ≤ b && b ≤ 90 then b + 32 else b

/-- ASCII lowercasing of a string, as done by `str.lower()` on the
ASCII document-type names the source compares. -/
def asciiLower (s : String) : String :=
  String.mk (s.data.map (fun c =>
    if 'A' ≤ c && c ≤ 'Z' then Char.ofNat (c.toNat + 32) else c))

/-- Python `buffer[a:b]` on a byte buffer (indices here are already
nonnegative, as everywhere in the source). -/
def pySliceBytes (buf : List Nat) (a b : Nat) : List Nat :=
  (buf.take b).drop a

/-- `bytes.decode('utf8', errors='surrogateescape')`, restricted to the
ASCII inputs exercised here (each byte becomes the corresponding
character; multi-byte UTF-8 sequences are not modelled). -/
def decodeBytes (bs : List Nat) : String :=
  String.mk (bs.map Char.ofNat)

/-- UTF-8 encoding of an ASCII string as a byte list (used to build the
concrete input buffers of the end-to-end scenarios). -/
def asciiBytes (s : String) : List Nat :=
  s.data.map Char.toNat

/-- `SgmlToken`: one token from the tokenizer adapter.  `attr_seq` is
the ordered attribute list (`None` for tokens without attributes); the
derived `attrs` dict of the source is recomputed via `pyDict` where
used. -/
structure SgmlToken where
  kind : String
  tag : Option String := none
  attr_seq : Option (List (String × String)) := none
  data : Option String := none

/-- `ParseState`: the byte cursor `{buffer, start, end}` (the field
`end` is called `stop` here because `end` is a Lean keyword). -/
structure ParseState where
  buffer : List Nat
  start : Nat
  stop : Nat

/-- `ParseState.startswithnc` for a single expected byte string
(`expected` is lowercase in every call site, as in the source; the
slice is taken from the raw buffer exactly as `self.buffer[self.start :
self.start+len(expected)]` does, ignoring `stop`). -/
def ParseState.startswithnc (s : ParseState) (expected : List Nat) : Bool :=
  (pySliceBytes s.buffer s.start (s.start + expected.length)).map byteLower == expected

/-- `ParseState.startswith` (case sensitive). -/
def ParseState.startswith (s : ParseState) (expected : List Nat) : Bool :=
  pySliceBytes s.buffer s.start (s.start + expected.length) == expected

/-- `ParseState.peekchar`: next byte or `None` at the end.  (When
`start < stop` the byte exists whenever `stop ≤ buffer.length`, an
invariant every caller maintains.) -/
def ParseState.peekchar (s : ParseState) : Option Nat :=
  if s.start < s.stop then s.buffer.get? s.start else none

/-- `ParseState.skipchar`: advance one byte or raise
`UnexpectedEndOfFileError`. -/
def ParseState.skipchar (s : ParseState) : Except PyErr ParseState :=
  if s.start < s.stop then .ok { s with start := s.start + 1 }
  else .error .unexpectedEndOfFile

/-- `StrParseState`: the text cursor. -/
structure StrParseState where
  buffer : String
  start : Nat
  stop : Nat

/-- `TokenParseState`: the token cursor. -/
structure TokenParseState where
  buffer : List SgmlToken
  start : Nat
  stop : Nat

/-- `TokenParseState.peektoken`: next token or `None` at the end. -/
def TokenParseState.peektoken (s : TokenParseState) : Option SgmlToken :=
  if s.start < s.stop then s.buffer.get? s.start else none

/-- `TokenParseState.skiptoken`: advance one token or raise
`UnexpectedEndOfFileError`. -/
def TokenParseState.skiptoken (s : TokenParseState) : Except PyErr TokenParseState :=
  if s.start < s.stop then .ok { s with start := s.start + 1 }
  else .error .unexpectedEndOfFile

/-- Script descriptor built by `tokenparse_html_script`. -/
structure Script where
  type : Option String := none
  src : Option String := none
  attrs : List (String × String) := []
  content : Option String := none
  json : Option Json := none

/-- Style descriptor built by `tokenparse_html_style`. -/
structure Style where
  blocking : Option String := none
  media : Option String := none
  nonce : Option String := none
  title : Option String := none
  type : Option String := none
  attrs : List (String × String) := []
  content : Option String := none

/-- Link descriptor built by the `<link>` branch of
`tokenparse_html_toplevel`. -/
structure Link where
  rel : Option String := none
  href : Option String := none
  type : Option String := none
  title : Option String := none
  attrs : List (String × String) := []

/-- A candidate identity for an author or a containing feed: the union
of the dict keys the source ever stores in `main_content['author']` and
`main_content['containing_feeds']` entries. -/
structure Entity where
  name : Option String := none
  url : Option String := none
  sameAs : Option (List String) := none
  url_has_info : Option (List String) := none
  generic_name : Option String := none
  html_link : Option Link := none
  json_ld : Option Json := none

/-- Verbatim structural capture `{kind, tag, attrs, data}` of one token
(used for `unknown_tokens` and for opaque nodes inside content lists). -/
structure TokenCapture where
  kind : String
  tag : Option String
  attrs : Option (List (String × String))
  data : Option String

/-- `TokenCapture` of a token: the capture reproduces the token's kind,
tag, ordered attribute sequence and data verbatim. -/
def captureOf (t : SgmlToken) : TokenCapture :=
  { kind := t.kind, tag := t.tag, attrs := t.attr_seq, data := t.data }

/-- A node of `html.content` / `noscript` content lists. -/
inductive ContentNode where
  | noscript (attrs : Option (List (String × String))) (contents : List ContentNode)
  | capture (c : TokenCapture)

/-- `main_content['description']`: the `{'text': ...}` record. -/
structure Description where
  text : String

/-- The `html` sub-record of the result.  In the source the sub-dict and
its list-valued keys are created on demand; since the source only ever
appends to the lists, a missing key and an empty list are
observationally equal and the lists are modelled as always present. -/
structure HtmlInfo where
  title : Option String := none
  html_id : Option String := none
  html_class : Option String := none
  html_unknown_attrs : List (String × String) := []
  head_attrs : List (String × String) := []
  body_attrs : List (String × String) := []
  scripts : List Script := []
  styles : List Style := []
  links : List Link := []
  metas : List (List (String × String)) := []
  comments : List (Option String) := []
  content : List ContentNode := []

/-- The `main_content` sub-record of the result. -/
structure MainContent where
  title : Option String := none
  headline : Option String := none
  kind : Option String := none
  date_published : Option String := none
  date_modified : Option String := none
  description : Option Description := none
  author : List Entity := []
  containing_feeds : List Entity := []
  json_ld : Option Json := none

/-- The stored favicon `{size, url}`; `size` is an integer or the
sentinel `"any"`. -/
inductive IconSize where
  | any
  | px (n : Int)
deriving DecidableEq, Repr

structure Favicon where
  size : IconSize
  url : String

/-- The whole result record (`info` in the source). -/
structure Info where
  html : HtmlInfo := {}
  main_content : MainContent := {}
  url : Option String := none
  base_url : Option String := none
  favicon : Option Favicon := none
  errors : List String := []
  unknown_tokens : List TokenCapture := []
  json_ld : List Json := []
  document_type_name : Option String := none
  trailing_data : Option String := none

/-- `{url} ∪ sameAs` of a candidate entity, as computed twice inside
`object_matches`: `([obj['url']] if 'url' in obj else []) +
(obj.get('sameAs') or [])` (an empty `sameAs` list is falsy, hence also
contributes nothing). -/
def objectUrls (e : Entity) : List String :=
  (match e.url with | some u => [u] | none => []) ++ e.sameAs.getD []

/-- `object_matches(obj, ld)`: names equal (both-absent names compare
equal, as `None == None` does), or the two url sets intersect. -/
def object_matches (obj ld : Entity) : Bool :=
  if obj.name == ld.name then true
  else (objectUrls obj).any (fun u => pyIn u (objectUrls ld))

/-- The per-key merge loop of `add_main_author`: every present field of
the incoming candidate overwrites the stored one, except `sameAs` when
both are present, where the incoming urls are appended one by one,
skipping those already stored. -/
def pyDedupAppend (acc l : List String) : List String :=
  l.foldl (fun acc u => if pyIn u acc then acc else acc ++ [u]) acc

/-- Merge the incoming candidate `a` into the stored entity `orig`
(`for key, val in author.items(): ...`). -/
def mergeEntity (orig a : Entity) : Entity :=
  { name := match a.name with | some v => some v | none => orig.name
    url := match a.url with | some v => some v | none => orig.url
    sameAs := match a.sameAs with
      | some l => some (match orig.sameAs with
          | some ol => pyDedupAppend ol l
          | none => l)
      | none => orig.sameAs
    url_has_info := match a.url_has_info with | some v => some v | none => orig.url_has_info
    generic_name := match a.generic_name with | some v => some v | none => orig.generic_name
    html_link := match a.html_link with | some v => some v | none => orig.html_link
    json_ld := match a.json_ld with | some v => some v | none => orig.json_ld }

/-- `add_main_author(info, author)`: match the candidate against the
stored authors in order; merge into the first match, or append a fresh
entity (merging into an empty dict copies every present field). -/
def add_main_author (info : Info) (author : Entity) : Info :=
  let authors := info.main_content.author
  let newAuthors :=
    match authors.findIdx? (fun o => object_matches o author) with
    | some i => authors.set i (mergeEntity (authors.getD i {}) author)
    | none => authors ++ [mergeEntity {} author]
  { info with main_content := { info.main_content with author := newAuthors } }

/-- `set_main_description(info, description)`: first writer wins. -/
def set_main_description (info : Info) (description : Description) : Info :=
  match info.main_content.description with
  | some _ => info
  | none => { info with main_content := { info.main_content with description := some description } }

/-- Python `key in value` for a decoded JSON value: key lookup on a
dict, `==`-membership on a list, substring test on a string, and
`TypeError` on the non-container values. -/
def jHasKey (j : Json) (k : String) : Except PyErr Bool :=
  match j with
  | .obj fields => .ok (fields.any (fun kv => kv.1 == k))
  | .arr xs => .ok (xs.any (fun x => match x with | .str s => s == k | _ => false))
  | .str s => .ok (List.isPrefixOf k.data (s.data.drop 0) ||
      (List.range s.data.length).any (fun i => List.isPrefixOf k.data (s.data.drop i)))
  | _ => .error .typeError

/-- Python `value[key]` for a decoded JSON value: dict lookup (keys are
unique in `json.loads` output), `KeyError` when missing, `TypeError`
on anything that is not a dict. -/
def jGetItem (j : Json) (k : String) : Except PyErr Json :=
  match j with
  | .obj fields =>
    match fields.find? (fun kv => kv.1 == k) with
    | some kv => .ok kv.2
    | none => .error .keyError
  | _ => .error .typeError

/-- Model restriction: the candidate-identity fields the source copies
out of a JSON-LD node (`name`, `url`, the elements of `sameAs`) are
strings in every input this development evaluates; a non-string value
is mapped to `TypeError` here (the source would store the raw value). -/
def jAsString (j : Json) : Except PyErr String :=
  match j with
  | .str s => .ok s
  | _ => .error .typeError

def jAsStringList (j : Json) : Except PyErr (List String) :=
  match j with
  | .arr xs => xs.mapM jAsString
  | _ => .error .typeError

/-- `'Article' in typ` for a decoded `@type` list: Python `in` compares
the string against each element. -/
def jListContainsStr (xs : List Json) (k : String) : Bool :=
  xs.any (fun x => match x with | .str s => s == k | _ => false)

/-- Build the `toplevel_author` dict for one entry of a JSON-LD
`author` list. -/
def jsonAuthorToEntity (a : Json) : Except PyErr Entity := do
  let hasName ← jHasKey a "name"
  let name ← if hasName then do
      let v ← jGetItem a "name"
      (jAsString v).map some
    else pure none
  let hasSameAs ← jHasKey a "sameAs"
  let sameAs ← if hasSameAs then do
      let v ← jGetItem a "sameAs"
      (jAsStringList v).map some
    else pure none
  let hasUrl ← jHasKey a "url"
  let url ← if hasUrl then do
      let v ← jGetItem a "url"
      (jAsString v).map some
    else pure none
  let url_has_info : Option (List String) := if hasUrl then some ["unknown"] else none
  .ok { name := name, sameAs := sameAs, url := url,
        url_has_info := url_has_info, json_ld := some a }

/-- The entity view of a JSON-LD `publisher` dict used for
identity-matching against the stored feeds. -/
def jsonPublisherToEntity (p : Json) : Except PyErr Entity := do
  let hasName ← jHasKey p "name"
  let name ← if hasName then do
      let v ← jGetItem p "name"
      (jAsString v).map some
    else pure none
  let hasSameAs ← jHasKey p "sameAs"
  let sameAs ← if hasSameAs then do
      let v ← jGetItem p "sameAs"
      (jAsStringList v).map some
    else pure none
  let hasUrl ← jHasKey p "url"
  let url ← if hasUrl then do
      let v ← jGetItem p "url"
      (jAsString v).map some
    else pure none
  .ok { name := name, sameAs := sameAs, url := url }

/-- `fill_from_json_ld(info, ld)`: reconcile the captured JSON-LD node
list into `main_content`.  Anything other than exactly one node is
"too complicated" and returns `info` unchanged. -/
def fill_from_json_ld (info : Info) (ld : List Json) : Except PyErr Info :=
  match ld with
  | [node] => do
    let info := { info with main_content := { info.main_content with json_ld := some node } }
    -- @type containing an Article alias sets kind (only if kind unset)
    let hasType ← jHasKey node "@type"
    let info ← if hasType then do
        let typ ← jGetItem node "@type"
        match typ with
        | .arr ts =>
          if info.main_content.kind == none then
            if jListContainsStr ts "Article" || jListContainsStr ts "http://schema.org/Article" ||
               jListContainsStr ts "https://schema.org/Article" then
              pure { info with main_content := { info.main_content with kind := some "article" } }
            else pure info
          else pure info
        | _ => pure info
      else pure info
    -- headline (string) sets headline, and title if unset
    let hasHeadline ← jHasKey node "headline"
    let info ← if hasHeadline then do
        let h ← jGetItem node "headline"
        match h with
        | .str hs =>
          if info.main_content.headline == none then
            let info := { info with main_content := { info.main_content with headline := some hs } }
            if info.main_content.title == none then
              pure { info with main_content := { info.main_content with title := some hs } }
            else pure info
          else pure info
        | _ => pure info
      else pure info
    -- datePublished / dateModified (strings), only if unset
    let hasDp ← jHasKey node "datePublished"
    let info ← if hasDp then do
        let d ← jGetItem node "datePublished"
        match d with
        | .str ds =>
          if info.main_content.date_published == none then
            pure { info with main_content := { info.main_content with date_published := some ds } }
          else pure info
        | _ => pure info
      else pure info
    let hasDm ← jHasKey node "dateModified"
    let info ← if hasDm then do
        let d ← jGetItem node "dateModified"
        match d with
        | .str ds =>
          if info.main_content.date_modified == none then
            pure { info with main_content := { info.main_content with date_modified := some ds } }
          else pure info
        | _ => pure info
      else pure info
    -- description (string) through the first-writer-wins setter
    let hasDesc ← jHasKey node "description"
    let info ← if hasDesc then do
        let d ← jGetItem node "description"
        match d with
        | .str ds => pure (set_main_description info { text := ds })
        | _ => pure info
      else pure info
    -- author (non-empty list): identity-matching merge of each entry
    let hasAuthor ← jHasKey node "author"
    let info ← if hasAuthor then do
        let av ← jGetItem node "author"
        match av with
        | .arr authors =>
          if authors.isEmpty then pure info
          else authors.foldlM (fun info a => do
              let ta ← jsonAuthorToEntity a
              pure (add_main_author info ta)) info
        | _ => pure info
      else pure info
    -- publisher (non-empty dict): identity-matching merge into feeds
    let hasPub ← jHasKey node "publisher"
    let info ← if hasPub then do
        let pv ← jGetItem node "publisher"
        match pv with
        | .obj fields =>
          if fields.isEmpty then pure info
          else do
            let pubEnt ← jsonPublisherToEntity pv
            let feeds := info.main_content.containing_feeds
            let hasName ← jHasKey pv "name"
            let pubName ← if hasName then (do
                let v ← jGetItem pv "name"
                (jAsString v).map some)
              else pure none
            let hasUrl ← jHasKey pv "url"
            let pubUrl ← if hasUrl then (do
                let v ← jGetItem pv "url"
                (jAsString v).map some)
              else pure none
            let updateFeed := fun (orig : Entity) =>
              let orig := match pubName with | some n => { orig with name := some n } | none => orig
              let orig := match pubUrl with
                | some u => { orig with url := some u, url_has_info := some ["unknown"] }
                | none => orig
              { orig with json_ld := some pv }
            let newFeeds :=
              match feeds.findIdx? (fun f => object_matches f pubEnt) with
              | some i => feeds.set i (updateFeed (feeds.getD i {}))
              | none => feeds ++ [updateFeed {}]
            pure { info with main_content := { info.main_content with containing_feeds := newFeeds } }
        | _ => pure info
      else pure info
    .ok info
  | _ => .ok info

/-- The external collaborators, specified only at their interface: the
HTML tokenizer, `json.loads` (`none` models a `json.JSONDecodeError`),
and `urllib.parse.urljoin`. -/
structure Collab where
  tokenize : String → List SgmlToken
  jsonLoads : String → Option Json
  urljoin : String → String → String

/-- `tokenparse_html_title`: expects exactly `start title, data, end
title`; stores the stripped text into `html['title']`.  (The opening
token is peeked but never used by the source, so only the skip is
modelled; a `None` peek later would hit `.kind` / `.strip()` on `None`,
an `AttributeError`.) -/
def tokenparse_html_title (data : TokenParseState) (info : Info) :
    Except PyErr (TokenParseState × Info) := do
  let data ← data.skiptoken
  match data.peektoken with
  | none => .error .attributeError
  | some content_token =>
    if content_token.kind != "data" then .error .unexpectedData
    else do
      let data ← data.skiptoken
      match data.peektoken with
      | none => .error .attributeError
      | some close_token =>
        if close_token.kind != "end" || close_token.tag != some "title" then
          .error .unexpectedData
        else do
          let data ← data.skiptoken
          match content_token.data with
          | none => .error .attributeError
          | some s =>
            .ok (data, { info with html := { info.html with title := some (pyStrip s) } })

/-- Attribute partition of `tokenparse_html_script`. -/
def buildScript (l : List (String × String)) : Script :=
  l.foldl (fun sc av =>
    if av.1 == "type" then { sc with type := some av.2 }
    else if av.1 == "src" then { sc with src := some av.2 }
    else { sc with attrs := sc.attrs ++ [av] }) {}

/-- `tokenparse_html_script`: consume `start script`, optional `data`
content, `end script`.  A `+json` type with content is decoded; an
`application/ld+json` payload is drained into the top-level `json_ld`
list and the script is *not* recorded under `html['scripts']`. -/
def tokenparse_html_script (ext : Collab) (data : TokenParseState) (info : Info) :
    Except PyErr (TokenParseState × Info) := do
  match data.peektoken with
  | none => (data.skiptoken).map (fun d => (d, info))  -- unreachable: skiptoken raises
  | some open_token => do
    let data ← data.skiptoken
    let l ← match open_token.attr_seq with
      | some l => pure l
      | none => .error .typeError  -- iterating None raises TypeError
    let script := buildScript l
    let (script, data) ← match data.peektoken with
      | none => .error .attributeError  -- next_token.kind on None
      | some next_token =>
        if next_token.kind == "data" then do
          let script := { script with content := next_token.data }
          let data ← data.skiptoken
          match data.peektoken with
          | none => .error .attributeError
          | some next_token =>
            if next_token.kind != "end" || next_token.tag != some "script" then
              .error .parseError
            else do
              let data ← data.skiptoken
              pure (script, data)
        else
          if next_token.kind != "end" || next_token.tag != some "script" then
            .error .parseError
          else do
            let data ← data.skiptoken
            pure (script, data)
    if pyEndsWith (script.type.getD "") "+json" && script.content.isSome then do
      let v ← match ext.jsonLoads (script.content.getD "") with
        | some v => pure v
        | none => .error .jsonDecodeError  -- json.loads raises JSONDecodeError (a ValueError)
      let script := { script with json := some v }
      if script.type == some "application/ld+json" then do
        -- info['json_ld'].extend(script['json']): extending by a decoded
        -- list appends its elements; a dict would contribute its keys, a
        -- string its characters, and a scalar raises TypeError.
        let newNodes ← match v with
          | .arr xs => pure xs
          | .obj fields => pure (fields.map (fun kv => Json.str kv.1))
          | .str s => pure (s.data.map (fun c => Json.str (String.mk [c])))
          | _ => .error .typeError
        .ok (data, { info with json_ld := info.json_ld ++ newNodes })
      else
        .ok (data, { info with html := { info.html with scripts := info.html.scripts ++ [script] } })
    else
      .ok (data, { info with html := { info.html with scripts := info.html.scripts ++ [script] } })

/-- Attribute partition of `tokenparse_html_style`. -/
def buildStyle (l : List (String × String)) : Style :=
  l.foldl (fun st av =>
    if av.1 == "blocking" then { st with blocking := some av.2 }
    else if av.1 == "media" then { st with media := some av.2 }
    else if av.1 == "nonce" then { st with nonce := some av.2 }
    else if av.1 == "title" then { st with title := some av.2 }
    else if av.1 == "type" then { st with type := some av.2 }
    else { st with attrs := st.attrs ++ [av] }) {}

/-- `tokenparse_html_style`: expects `start style, data, end style` and
appends a style descriptor to `html['styles']`.  (Unlike the script
extractor, the source skips past the would-be content token before
checking its kind.) -/
def tokenparse_html_style (data : TokenParseState) (info : Info) :
    Except PyErr (TokenParseState × Info) := do
  match data.peektoken with
  | none => (data.skiptoken).map (fun d => (d, info))  -- unreachable: skiptoken raises
  | some open_token => do
    let data ← data.skiptoken
    let l ← match open_token.attr_seq with
      | some l => pure l
      | none => .error .typeError
    let style := buildStyle l
    let next_token := data.peektoken
    let data ← data.skiptoken
    match next_token with
    | none => .error .unexpectedEndOfFile  -- unreachable: the skip above raised first
    | some next_token =>
      if next_token.kind != "data" then .error .parseError
      else do
        let style := { style with content := next_token.data }
        match data.peektoken with
        | none => .error .attributeError
        | some close_token =>
          if close_token.kind != "end" || close_token.tag != some "style" then
            .error .parseError
          else do
            let data ← data.skiptoken
            .ok (data, { info with html := { info.html with styles := info.html.styles ++ [style] } })

mutual

/-- `tokenparse_html_contentlist`: loop collecting content nodes until
the matching close tag.  A peek at an exhausted stream feeds `None`
into `.kind`, an `AttributeError` (not the `UnexpectedEndOfFileError`
the spec names).  An `UnrecognizedDataError` from the content extractor
is recovered by capturing the token verbatim and advancing one token;
any other `ParseError` reaches the `except ParseError` handler, whose
`traceback.format_exception()` call (no arguments) itself raises
`TypeError`, aborting the parse. -/
def tokenparse_html_contentlist (fuel : Nat) (data : TokenParseState) (info : Info)
    (closingtag : String) : Except PyErr (TokenParseState × Info × List ContentNode) :=
  match data.peektoken with
  | none => .error .attributeError
  | some token =>
    if token.kind == "end" && token.tag == some closingtag then do
      let data ← data.skiptoken
      .ok (data, info, [])
    else
      match fuel with
      | 0 => .error .outOfFuel
      | fuel + 1 =>
        match tokenparse_html_content fuel data info with
        | .ok (data1, info1, c) =>
          (tokenparse_html_contentlist fuel data1 info1 closingtag).map
            (fun r => (r.1, r.2.1, match c with | some c => c :: r.2.2 | none => r.2.2))
        | .error e =>
          if e.isUnrecognizedData then
            match data.skiptoken with
            | .ok data1 =>
              (tokenparse_html_contentlist fuel data1 info closingtag).map
                (fun r => (r.1, r.2.1, ContentNode.capture (captureOf token) :: r.2.2))
            | .error e1 => .error e1
          else if e.isParseError then .error .typeError  -- format_exception() with no arguments
          else .error e

/-- `tokenparse_html_content`: recognizes only `<noscript>`; anything
else raises `UnrecognizedDataError` to let the caller fall back.  (The
`parent` parameter of the source is never read and is omitted.) -/
def tokenparse_html_content (fuel : Nat) (data : TokenParseState) (info : Info) :
    Except PyErr (TokenParseState × Info × Option ContentNode) :=
  match data.peektoken with
  | none => .error .attributeError  -- token.kind on None
  | some token =>
    if token.kind == "start" && token.tag == some "noscript" then
      match fuel with
      | 0 => .error .outOfFuel
      | fuel + 1 =>
        match data.skiptoken with
        | .ok data1 =>
          match tokenparse_html_contentlist fuel data1 info "noscript" with
          | .ok (data2, info2, contents) =>
            let attrs : Option (List (String × String)) :=
              match token.attr_seq with
              | some l => if l.isEmpty then none else some l
              | none => none
            .ok (data2, info2, some (ContentNode.noscript attrs contents))
          | .error e => .error e
        | .error e => .error e
    else .error .unrecognizedData

end

/-- Attribute partition of the `<link>` branch. -/
def buildLink (l : List (String × String)) : Link :=
  l.foldl (fun lk av =>
    if av.1 == "rel" then { lk with rel := some av.2 }
    else if av.1 == "href" then { lk with href := some av.2 }
    else if av.1 == "type" then { lk with type := some av.2 }
    else if av.1 == "title" then { lk with title := some av.2 }
    else { lk with attrs := lk.attrs ++ [av] }) {}

/-- The favicon replacement condition: `'favicon' not in info or
(stored != 'any' and (candidate == 'any' or candidate > stored))`. -/
def faviconReplace (stored : Option Favicon) (candidate : IconSize) : Bool :=
  match stored with
  | none => true
  | some f =>
    match f.size, candidate with
    | .any, _ => false
    | .px _, .any => true
    | .px s, .px t => t > s

/-- `tokenparse_html_toplevel`: the central per-token dispatch.  The
source's nested `if` chains with early returns are flattened into one
`else if` chain; a branch whose `except ParseError` handler fires is
modelled as `.error .typeError` because the handler's zero-argument
`traceback.format_exception()` call raises `TypeError` before anything
is appended to `errors` (and the mutated `info` is then discarded, the
whole parse aborting). -/
def tokenparse_html_toplevel (fuel : Nat) (ext : Collab) (data : TokenParseState)
    (info : Info) : Except PyErr (TokenParseState × Info) :=
  match data.peektoken with
  | none => .error .attributeError  -- token.kind on None
  | some token =>
    if token.kind == "start" && token.tag == some "html" then do
      let l ← match token.attr_seq with
        | some l => pure l
        | none => (.error .typeError : Except PyErr _)
      let info := l.foldl (fun info av =>
        if av.1 == "id" then { info with html := { info.html with html_id := some av.2 } }
        else if av.1 == "class" then { info with html := { info.html with html_class := some av.2 } }
        else { info with html := { info.html with
                 html_unknown_attrs := info.html.html_unknown_attrs ++ [av] } }) info
      let data ← data.skiptoken
      .ok (data, info)
    else if token.kind == "start" && token.tag == some "head" then do
      let l ← match token.attr_seq with
        | some l => pure l
        | none => (.error .typeError : Except PyErr _)
      let info := { info with html := { info.html with head_attrs := info.html.head_attrs ++ l } }
      let data ← data.skiptoken
      .ok (data, info)
    else if token.kind == "start" && token.tag == some "body" then do
      let l ← match token.attr_seq with
        | some l => pure l
        | none => (.error .typeError : Except PyErr _)
      let info := { info with html := { info.html with body_attrs := info.html.body_attrs ++ l } }
      let data ← data.skiptoken
      .ok (data, info)
    else if token.kind == "start" && token.tag == some "script" then
      match tokenparse_html_script ext data info with
      | .ok r => .ok r
      | .error e =>
        if e.isParseError then .error .typeError  -- format_exception() with no arguments
        else .error e
    else if token.kind == "start" && token.tag == some "link" then do
      let l ← match token.attr_seq with
        | some l => pure l
        | none => (.error .typeError : Except PyErr _)
      let link := buildLink l
      let info := { info with html := { info.html with links := info.html.links ++ [link] } }
      let info := if link.rel == some "canonical" && info.url == none && link.href.isSome then
          { info with url := link.href } else info
      let info := if link.rel == some "canonical" && info.base_url == none && link.href.isSome then
          { info with base_url := link.href } else info
      let info :=
        if link.rel == some "alternate" && link.type == some "application/rss+xml" &&
           link.href.isSome then
          let href := ext.urljoin (info.base_url.getD "") (link.href.getD "")
          let feed : Entity :=
            { url := some href,
              url_has_info := some ["name", "description", "unknown"],
              html_link := some link,
              name := link.title,
              generic_name := if link.title.isSome then none else some "RSS Feed" }
          { info with main_content := { info.main_content with
              containing_feeds := info.main_content.containing_feeds ++ [feed] } }
        else info
      let info ←
        if (link.rel == some "icon" || link.rel == some "shortcut icon" ||
            link.rel == some "apple-touch-icon") && link.href.isSome then
          match pyDictGet (pyDict l) "sizes" with
          | some s =>
            if s == "any" then
              let candidate := IconSize.any
              if faviconReplace info.favicon candidate then
                let fav := Favicon.mk candidate (ext.urljoin (info.base_url.getD "") (link.href.getD ""))
                pure { info with favicon := some fav }
              else pure info
            else
              -- int(link.attrs['sizes'].split('x')[0]): `link` is a plain
              -- dict, and attribute access on it raises AttributeError.
              (.error .attributeError : Except PyErr Info)
          | none =>
            let candidate := if link.rel == some "apple-touch-icon" then IconSize.px 192
                             else IconSize.px 16
            if faviconReplace info.favicon candidate then
              let fav := Favicon.mk candidate (ext.urljoin (info.base_url.getD "") (link.href.getD ""))
              pure { info with favicon := some fav }
            else pure info
        else pure info
      let data ← data.skiptoken
      .ok (data, info)
    else if token.kind == "start" && token.tag == some "meta" then do
      let l ← match token.attr_seq with
        | some l => pure l
        | none => (.error .attributeError : Except PyErr _)  -- token.attrs is None; .get raises
      let attrs := pyDict l
      let info := { info with html := { info.html with metas := info.html.metas ++ [attrs] } }
      let name := pyOrStr (pyDictGet attrs "name") (pyOrStr (pyDictGet attrs "http-equiv")
        (pyOrStr (pyDictGet attrs "itemprop") (pyDictGet attrs "property")))
      let info := if (name == some "description" || name == some "og:description") &&
                     (pyDictGet attrs "content").isSome then
          set_main_description info { text := (pyDictGet attrs "content").getD "" }
        else info
      let info := if name == some "sailthru.author" && (pyDictGet attrs "content").isSome then
          add_main_author info { name := pyDictGet attrs "content" }
        else info
      let info := if name == some "og:type" && pyDictGet attrs "content" == some "article" then
          { info with main_content := { info.main_content with kind := some "article" } }
        else info
      let info := if name == some "og:title" && (pyDictGet attrs "content").isSome then
          { info with main_content := { info.main_content with title := pyDictGet attrs "content" } }
        else info
      let info := if name == some "og:url" && (pyDictGet attrs "content").isSome then
          let info := if info.url == none then { info with url := pyDictGet attrs "content" }
                      else info
          if info.base_url == none then { info with base_url := pyDictGet attrs "content" }
          else info
        else info
      let data ← data.skiptoken
      .ok (data, info)
    else if token.kind == "start" && token.tag == some "title" then
      match tokenparse_html_title data info with
      | .ok r => .ok r
      | .error e =>
        if e.isParseError then .error .typeError  -- format_exception() with no arguments
        else .error e
    else if token.kind == "start" && token.tag == some "style" then
      match tokenparse_html_style data info with
      | .ok r => .ok r
      | .error e =>
        if e.isParseError then .error .typeError  -- format_exception() with no arguments
        else .error e
    else if token.kind == "end" &&
        (token.tag == some "html" || token.tag == some "head" || token.tag == some "link" ||
         token.tag == some "meta" || token.tag == some "body") then do
      let data ← data.skiptoken
      .ok (data, info)
    else if token.kind == "decl" then do
      -- the doctype has already been handled by the preamble dispatcher
      let data ← data.skiptoken
      .ok (data, info)
    else
      match tokenparse_html_content fuel data info with
      | .ok (data1, info1, some c) =>
        .ok (data1, { info1 with html := { info1.html with content := info1.html.content ++ [c] } })
      | .ok (data1, info1, none) => .ok (data1, info1)
      | .error e =>
        if e.isUnrecognizedData then
          -- fall through to the whitespace / comment / capture fallback
          if token.kind == "data" then
            match token.data with
            | none => .error .attributeError  -- token.data.isspace() on None
            | some s =>
              if pyStrIsSpace s then do
                let data ← data.skiptoken
                .ok (data, info)
              else do
                let data ← data.skiptoken
                .ok (data, { info with unknown_tokens := info.unknown_tokens ++ [captureOf token] })
          else if token.kind == "comment" then do
            let data ← data.skiptoken
            .ok (data, { info with html := { info.html with
                   comments := info.html.comments ++ [token.data] } })
          else do
            let data ← data.skiptoken
            .ok (data, { info with unknown_tokens := info.unknown_tokens ++ [captureOf token] })
        else if e.isParseError then .error .typeError  -- format_exception() with no arguments
        else .error e

/-- The `while data.start < data.end` loop of `tokenparse_html`. -/
def tokenparse_html_loop (fuel : Nat) (ext : Collab) (data : TokenParseState)
    (info : Info) : Except PyErr (TokenParseState × Info) :=
  match fuel with
  | 0 => if data.start < data.stop then .error .outOfFuel else .ok (data, info)
  | fuel + 1 =>
    if data.start < data.stop then
      match tokenparse_html_toplevel fuel ext data info with
      | .ok (data1, info1) => tokenparse_html_loop fuel ext data1 info1
      | .error e => .error e
    else .ok (data, info)

/-- `tokenparse_html`: run the walker to end of stream, reconcile the
captured JSON-LD (the source calls `fill_from_json_ld` only when the
`json_ld` key exists; an absent key and the empty list are
indistinguishable, and `fill_from_json_ld` on `[]` is the identity),
then fill the last-resort title. -/
def tokenparse_html (fuel : Nat) (ext : Collab) (data : TokenParseState)
    (info : Info) : Except PyErr (TokenParseState × Info) := do
  let (data, info) ← tokenparse_html_loop fuel ext data info
  let info ← fill_from_json_ld info info.json_ld
  let info := if info.main_content.title == none && info.html.title.isSome then
      { info with main_content := { info.main_content with title := info.html.title } }
    else info
  .ok (data, info)

/-- Python `s[a:b]` on a string. -/
def pySliceStr (s : String) (a b : Nat) : String :=
  String.mk ((s.data.take b).drop a)

/-- `strparse_html`: tokenize the slice and run the token walker.  (The
source returns the `(token_state, info)` pair that `tokenparse_html`
produced, despite its annotation.) -/
def strparse_html (fuel : Nat) (ext : Collab) (data : StrParseState) (info : Info) :
    Except PyErr (TokenParseState × Info) :=
  let document := pySliceStr data.buffer data.start data.stop
  let tokens := ext.tokenize document
  tokenparse_html fuel ext { buffer := tokens, start := 0, stop := tokens.length } info

/-- `parse_html`: decode the byte slice and hand it to `strparse_html`.
The source then unpacks the returned pair into `(string_data, info)` —
`string_data` is actually the final *token* cursor — and would record
`trailing_data` if that cursor were not exhausted; the walker's loop
only returns an exhausted cursor, so the branch never fires and is
modelled as the identity. -/
def parse_html (fuel : Nat) (ext : Collab) (data : ParseState) (info : Info) :
    Except PyErr Info := do
  let string_data := decodeBytes (pySliceBytes data.buffer data.start data.stop)
  let sps : StrParseState := { buffer := string_data, start := 0, stop := string_data.length }
  let (_, info) ← strparse_html fuel ext sps info
  .ok info

/-- `parse_expectnc`. -/
def parse_expectnc (data : ParseState) (expected : List Nat) : Except PyErr ParseState :=
  if data.startswithnc expected then .ok { data with start := data.start + expected.length }
  else .error .unexpectedData

/-- `parse_expect`. -/
def parse_expect (data : ParseState) (expected : List Nat) : Except PyErr ParseState :=
  if data.startswith expected then .ok { data with start := data.start + expected.length }
  else .error .unexpectedData

/-- The trailing `while` loop of `parse_ascii_whitespace`.  The loop
consumes one byte per iteration while `start < stop`, so it runs at
most `stop - start` times; `gas` is that structural bound (at `gas = 0`
the cursor is exhausted and `peekchar` would return `None` anyway). -/
def skip_ascii_whitespace_go : Nat → ParseState → ParseState
  | 0, data => data
  | gas + 1, data =>
    match data.peekchar with
    | some c =>
      if c == 9 || c == 10 || c == 12 || c == 13 || c == 32 then
        skip_ascii_whitespace_go gas { data with start := data.start + 1 }
      else data
    | none => data

def skip_ascii_whitespace (data : ParseState) : ParseState :=
  skip_ascii_whitespace_go (data.stop - data.start) data

/-- `parse_ascii_whitespace`: require one ASCII whitespace byte, then
skip the rest. -/
def parse_ascii_whitespace (data : ParseState) : Except PyErr ParseState :=
  match data.peekchar with
  | some c =>
    if c == 9 || c == 10 || c == 12 || c == 13 || c == 32 then do
      let data ← data.skipchar
      .ok (skip_ascii_whitespace data)
    else .error .unexpectedData
  | none => .error .unexpectedData  -- None is not in the whitespace tuple

/-- The name-reading loop of `parse_sgml_doctype`: read bytes up to the
next whitespace or `>`.  At end of input the source appends `None` to
the name and then `skipchar` raises `UnexpectedEndOfFileError`.  As in
`skip_ascii_whitespace_go`, each iteration consumes one byte while
`start < stop`, so `gas = stop - start` bounds the recursion and the
`outOfFuel` branch is unreachable from `parse_doctype_name`. -/
def parse_doctype_name_go : Nat → ParseState → List Nat →
    Except PyErr (ParseState × List Nat)
  | gas, data, acc =>
    if data.start < data.stop then
      match data.buffer.get? data.start with
      | some c =>
        if c == 9 || c == 10 || c == 12 || c == 13 || c == 32 || c == 62 then .ok (data, acc)
        else
          match gas with
          | 0 => .error .outOfFuel
          | gas + 1 => parse_doctype_name_go gas { data with start := data.start + 1 } (acc ++ [c])
      | none => .error .indexError  -- unreachable while stop ≤ buffer.length
    else .error .unexpectedEndOfFile

def parse_doctype_name (data : ParseState) (acc : List Nat) :
    Except PyErr (ParseState × List Nat) :=
  parse_doctype_name_go (data.stop - data.start) data acc

/-- `parse_sgml_doctype`: `<!doctype`, whitespace, a nonempty name, a
terminating `>`. -/
def parse_sgml_doctype (data : ParseState) (info : Info) :
    Except PyErr (ParseState × Info) := do
  let data ← parse_expectnc data (asciiBytes "<!doctype")
  let data ← parse_ascii_whitespace data
  match data.peekchar with
  | none => .error .unexpectedEndOfFile  -- None passes the first-char check; skipchar raises
  | some c =>
    if c == 9 || c == 10 || c == 12 || c == 13 || c == 32 || c == 62 then
      .error .unexpectedData
    else do
      let data ← data.skipchar
      let (data, typename) ← parse_doctype_name data [c]
      let info := { info with document_type_name := some (decodeBytes typename) }
      let data ← parse_expect data (asciiBytes ">")
      .ok (data, info)

/-- `parse_unknown`: doctype sniffing and dispatch; a buffer that does
not start with a case-insensitive `<!doctype` is rejected with
`UnrecognizedPreambleError`. -/
def parse_unknown (fuel : Nat) (ext : Collab) (data : ParseState) (info : Info) :
    Except PyErr (ParseState × Info) :=
  if data.startswithnc (asciiBytes "<!doctype") then do
    let full_data := data
    let (data, info) ← parse_sgml_doctype data info
    match info.document_type_name with
    | some n =>
      if asciiLower n == "html" then do
        let info ← parse_html fuel ext full_data info
        .ok ({ full_data with start := full_data.stop }, info)
      else .ok (data, info)
    | none => .error .keyError  -- unreachable: the doctype parser always stores the name
  else .error .unrecognizedPreamble

/-- `parse_bytes`: wrap the buffer in a cursor, parse, record trailing
data.  (The source passes a fresh empty dict to `parse_unknown`,
ignoring its own `info` argument.) -/
def parse_bytes (fuel : Nat) (ext : Collab) (buffer : List Nat) : Except PyErr Info := do
  let data : ParseState := { buffer := buffer, start := 0, stop := buffer.length }
  let (data, info) ← parse_unknown fuel ext data {}
  let info := if data.start != data.stop then
      { info with trailing_data := some (decodeBytes (pySliceBytes data.buffer data.start data.stop)) }
    else info
  .ok info

/-! ## Concrete inputs for the end-to-end scenarios -/

/-- A trivial collaborator instance for runs that never reach the
tokenizer or the JSON decoder. -/
def collab0 : Collab :=
  { tokenize := fun _ => [], jsonLoads := fun _ => none, urljoin := fun _ rel => rel }

/-- The end-to-end scenario 1 document. -/
def doc1str : String :=
  "<!doctype html><html><head><title> Hi </title></head><body></body></html>"

/-- Modelled from the spec: the output of the external HTML tokenizer
(an out-of-scope collaborator, specified at its interface only) for the
scenario 1 document. -/
def doc1tokens : List SgmlToken :=
  [{ kind := "decl", data := some "doctype html" },
   { kind := "start", tag := some "html", attr_seq := some [] },
   { kind := "start", tag := some "head", attr_seq := some [] },
   { kind := "start", tag := some "title", attr_seq := some [] },
   { kind := "data", data := some " Hi " },
   { kind := "end", tag := some "title" },
   { kind := "end", tag := some "head" },
   { kind := "start", tag := some "body", attr_seq := some [] },
   { kind := "end", tag := some "body" },
   { kind := "end", tag := some "html" }]

/-- Collaborator instance for scenario 1. -/
def collab1 : Collab :=
  { tokenize := fun s => if s == doc1str then doc1tokens else [],
    jsonLoads := fun _ => none, urljoin := fun _ rel => rel }

/-- The two favicon links of claim C1, as tokens. -/
def linkTok16 : SgmlToken :=
  { kind := "start", tag := some "link",
    attr_seq := some [("rel", "icon"), ("sizes", "16x16"), ("href", "a")] }

def linkTok32 : SgmlToken :=
  { kind := "start", tag := some "link",
    attr_seq := some [("rel", "icon"), ("sizes", "32x32"), ("href", "b")] }

/-- The JSON-LD payload text of end-to-end scenario 3. -/
def c5content : String := "[\x7b\"@type\":[\"Article\"],\"headline\":\"H\"\x7d]"

/-- The decoded JSON-LD node of end-to-end scenario 3. -/
def c5node : Json :=
  Json.obj [("@type", Json.arr [Json.str "Article"]), ("headline", Json.str "H")]

/-- Collaborator instance for scenario 3: `json.loads` decodes the
payload text into the one-element array around `c5node`. -/
def collab5 : Collab :=
  { tokenize := fun _ => [],
    jsonLoads := fun s => if s == c5content then some (Json.arr [c5node]) else none,
    urljoin := fun _ rel => rel }

/-- The token stream of scenario 3. -/
def c5stream : List SgmlToken :=
  [{ kind := "start", tag := some "script", attr_seq := some [("type", "application/ld+json")] },
   { kind := "data", data := some c5content },
   { kind := "end", tag := some "script" }]

/-- The spec's wording of the identity-matching predicate: two
candidate entities are "the same" iff their names are equal, or the set
`{url} ∪ sameAs` of one intersects that of the other. -/
def spec_object_matches (a b : Entity) : Prop :=
  a.name = b.name ∨ ∃ u, u ∈ objectUrls a ∧ u ∈ objectUrls b

/-- A token "matches no extraction rule" of the top-level walker: not a
handled start tag (including `noscript`, which the content extractor
recognizes), not an ignorable end tag, not a declaration, not a
comment, and — for data tokens — carrying non-whitespace text (a data
token with `None` text or pure whitespace takes a different path). -/
def matchesNoRule (t : SgmlToken) : Bool :=
  (if t.kind == "start" then
     !(t.tag == some "html" || t.tag == some "head" || t.tag == some "body" ||
       t.tag == some "script" || t.tag == some "link" || t.tag == some "meta" ||
       t.tag == some "title" || t.tag == some "style" || t.tag == some "noscript")
   else true) &&
  (if t.kind == "end" then
     !(t.tag == some "html" || t.tag == some "head" || t.tag == some "link" ||
       t.tag == some "meta" || t.tag == some "body")
   else true) &&
  !(t.kind == "decl") && !(t.kind == "comment") &&
  (if t.kind == "data" then
     (match t.data with | some s => !pyStrIsSpace s | none => false)
   else true)

/-! ## Helper lemmas -/

theorem except_bind_ok {e : Type} {a b : Type} (x : a) (f : a → Except e b) :
    (Except.ok x : Except e a) >>= f = f x := rfl

theorem except_bind_error {e : Type} {a b : Type} (err : e) (f : a → Except e b) :
    (Except.error err : Except e a) >>= f = .error err := rfl

theorem peektoken_some_lt {d : TokenParseState} {t : SgmlToken}
    (h : d.peektoken = some t) : d.start < d.stop := by
  unfold TokenParseState.peektoken at h
  by_cases hlt : d.start < d.stop
  · exact hlt
  · simp [hlt] at h

theorem peektoken_some_get {d : TokenParseState} {t : SgmlToken}
    (h : d.peektoken = some t) : d.buffer.get? d.start = some t := by
  unfold TokenParseState.peektoken at h
  by_cases hlt : d.start < d.stop
  · simpa [hlt] using h
  · simp [hlt] at h

theorem pyIn_iff {x : String} {l : List String} : pyIn x l = true ↔ x ∈ l := by
  simp only [pyIn, List.any_eq_true, beq_iff_eq]
  constructor
  · rintro ⟨y, hy, rfl⟩; exact hy
  · intro h; exact ⟨x, h, rfl⟩

theorem mem_pyDedupAppend {x : String} {acc l : List String} :
    x ∈ pyDedupAppend acc l ↔ x ∈ acc ∨ x ∈ l := by
  induction l generalizing acc with
  | nil => simp [pyDedupAppend]
  | cons u rest ih =>
    unfold pyDedupAppend at ih ⊢
    simp only [List.foldl_cons]
    by_cases hu : pyIn u acc
    · rw [if_pos hu, ih]
      have hmem : u ∈ acc := pyIn_iff.mp hu
      constructor
      · rintro (h | h)
        · exact Or.inl h
        · exact Or.inr (List.mem_cons_of_mem _ h)
      · rintro (h | h)
        · exact Or.inl h
        · rcases List.mem_cons.mp h with h | h
          · exact Or.inl (h ▸ hmem)
          · exact Or.inr h
    · rw [if_neg hu, ih]
      simp only [List.mem_append, List.mem_singleton, List.mem_cons]
      tauto

theorem nodup_pyDedupAppend {acc l : List String} (h : acc.Nodup) :
    (pyDedupAppend acc l).Nodup := by
  induction l generalizing acc with
  | nil => simpa [pyDedupAppend]
  | cons u rest ih =>
    unfold pyDedupAppend at ih ⊢
    simp only [List.foldl_cons]
    by_cases hu : pyIn u acc
    · rw [if_pos hu]; exact ih h
    · rw [if_neg hu]
      refine ih ?_
      have hnot : u ∉ acc := fun hmem => hu (pyIn_iff.mpr hmem)
      simpa [List.nodup_append] using ⟨h, hnot⟩

/-! ## Claim theorems -/

/-- C1 (code bug): feeding the walker `<link rel="icon" sizes="16x16"
href="a">` then `<link rel="icon" sizes="32x32" href="b">` — or the
two links in the opposite order — does not complete with a ranked
favicon: the favicon branch evaluates `link.attrs['sizes']` where
`link` is a plain dict, so attribute access raises `AttributeError` on
the very first link with a numeric `sizes` value and the whole parse
aborts with no result record. -/
theorem c1_favicon_sizes_crash :
    tokenparse_html 10 collab0 { buffer := [linkTok16, linkTok32], start := 0, stop := 2 } {} =
      .error .attributeError ∧
    tokenparse_html 10 collab0 { buffer := [linkTok32, linkTok16], start := 0, stop := 2 } {} =
      .error .attributeError := by
  exact ⟨rfl, rfl⟩

/-- C2 (code bug): for a malformed `<title>` missing its closing tag
(start title followed directly by start body), the title extractor does
raise `UnexpectedDataError` and the walker's `except ParseError`
handler does fire — but the handler's zero-argument
`traceback.format_exception()` call raises `TypeError`, so nothing is
appended to `errors`, the body token is never reached, and the parse
aborts with no result record. -/
theorem c2_malformed_title_recovery_crash :
    tokenparse_html 10 collab0
      { buffer := [{ kind := "start", tag := some "title", attr_seq := some [] },
                   { kind := "start", tag := some "body", attr_seq := some [] }],
        start := 0, stop := 2 } {} = .error .typeError := by
  exact rfl

/-- C3 (code bug): a `start noscript` token never followed by a
matching `end noscript` is indeed fatal to the whole parse, but the
failure is an `AttributeError` (`None.kind` in the content-list loop
condition at stream exhaustion), not the `UnexpectedEndOfFileError`
the claim names: the content extractor and the whole token parse both
abort with `AttributeError`, and in particular not with
`UnexpectedEndOfFileError`. -/
theorem c3_unterminated_noscript_crash :
    tokenparse_html_content 10
      { buffer := [{ kind := "start", tag := some "noscript", attr_seq := some [] }],
        start := 0, stop := 1 } {} = .error .attributeError ∧
    tokenparse_html 10 collab0
      { buffer := [{ kind := "start", tag := some "noscript", attr_seq := some [] }],
        start := 0, stop := 1 } {} = .error .attributeError ∧
    PyErr.attributeError ≠ PyErr.unexpectedEndOfFile := by
  exact ⟨rfl, rfl, by decide⟩

/-- C5: a document whose only structured-data source is a
`<script type="application/ld+json">` with the decoded content
`[{"@type": ["Article"], "headline": "H"}]` parses to
`main_content.kind == "article"`, `main_content.headline ==
main_content.title == "H"`, the one decoded node lands in the
top-level `json_ld` list, and nothing is recorded under
`html.scripts`. -/
theorem c5_json_ld_article :
    (tokenparse_html 10 collab5 { buffer := c5stream, start := 0, stop := 3 } {}).map
      (fun r => (r.2.main_content.kind, r.2.main_content.headline, r.2.main_content.title,
                 r.2.json_ld, r.2.html.scripts.length)) =
      .ok (some "article", some "H", some "H", [c5node], 0) := by
  exact rfl

/-- C6: the reconciliation pass leaves the result record entirely
unchanged — every `main_content` field included — whenever the captured
JSON-LD node list does not contain exactly one node (zero nodes, or
more than one). -/
theorem c6_multi_node_noop (info : Info) (ld : List Json) (h : ld.length ≠ 1) :
    fill_from_json_ld info ld = .ok info := by
  match ld with
  | [] => rfl
  | [x] => simp at h
  | x :: y :: rest => rfl

theorem c6_multi_node_noop_witness :
    fill_from_json_ld {} [] = .ok ({} : Info) ∧
    fill_from_json_ld {} [Json.null, Json.null] = .ok ({} : Info) :=
  ⟨c6_multi_node_noop {} [] (by decide), c6_multi_node_noop {} [Json.null, Json.null] (by decide)⟩

theorem object_matches_iff (a b : Entity) :
    object_matches a b = true ↔
      (a.name = b.name ∨ ∃ u, u ∈ objectUrls a ∧ u ∈ objectUrls b) := by
  unfold object_matches
  cases hb : a.name == b.name with
  | true =>
    simp only [if_pos rfl]
    constructor
    · intro _; exact Or.inl (by simpa using (beq_iff_eq.mp hb))
    · intro _; rfl
  | false =>
    have hne : ¬a.name = b.name := by
      intro h; rw [h] at hb; simp at hb
    simp only [Bool.false_eq_true, if_neg, hb]
    rw [if_neg (by simp [hb])]
    constructor
    · intro h
      rcases List.any_eq_true.mp h with ⟨u, hu, hp⟩
      exact Or.inr ⟨u, hu, pyIn_iff.mp hp⟩
    · rintro (h | ⟨u, hu1, hu2⟩)
      · exact absurd h hne
      · exact List.any_eq_true.mpr ⟨u, hu1, pyIn_iff.mpr hu2⟩

theorem object_matches_refl (a : Entity) : object_matches a a = true := by
  unfold object_matches
  rw [if_pos (by simp)]

theorem object_matches_symm (a b : Entity) :
    object_matches a b = object_matches b a := by
  have flip : ∀ x y : Entity, object_matches x y = true → object_matches y x = true := by
    intro x y h
    rcases (object_matches_iff x y).mp h with h | ⟨u, h1, h2⟩
    · exact (object_matches_iff y x).mpr (Or.inl h.symm)
    · exact (object_matches_iff y x).mpr (Or.inr ⟨u, h2, h1⟩)
  cases hab : object_matches a b with
  | true => exact ((flip a b hab)).symm
  | false =>
    cases hba : object_matches b a with
    | true => rw [flip b a hba] at hab; exact hab.symm
    | false => rfl

theorem mergeEntity_empty (a : Entity) : mergeEntity {} a = a := by
  cases a with
  | mk n u s uhi gn hl jl =>
    unfold mergeEntity
    simp only [Entity.mk.injEq]
    exact ⟨by cases n <;> rfl, by cases u <;> rfl, by cases s <;> rfl,
           by cases uhi <;> rfl, by cases gn <;> rfl, by cases hl <;> rfl,
           by cases jl <;> rfl⟩

/-- C4: the identity-matching predicate for authors and feeds holds iff
the names are equal or the `{url} ∪ sameAs` sets intersect; it is
reflexive and symmetric; and merging two author mentions that share a
`sameAs` URL yields a single stored author entity whose `sameAs` list
is the deduplicated union of the two lists (every element of either
list occurs, nothing else occurs, and no element is duplicated when the
first list was duplicate-free). -/
theorem c4_identity_matching :
    (∀ a b : Entity, object_matches a b = true ↔ spec_object_matches a b) ∧
    (∀ a : Entity, object_matches a a = true) ∧
    (∀ a b : Entity, object_matches a b = object_matches b a) ∧
    (∀ (a1 a2 : Entity) (l1 l2 : List String) (u : String),
      a1.sameAs = some l1 → a2.sameAs = some l2 → u ∈ l1 → u ∈ l2 →
      (add_main_author (add_main_author {} a1) a2).main_content.author =
        [mergeEntity a1 a2] ∧
      (mergeEntity a1 a2).sameAs = some (pyDedupAppend l1 l2) ∧
      (∀ x, x ∈ pyDedupAppend l1 l2 ↔ (x ∈ l1 ∨ x ∈ l2)) ∧
      (l1.Nodup → (pyDedupAppend l1 l2).Nodup)) := by
  refine ⟨fun a b => object_matches_iff a b, object_matches_refl, object_matches_symm,
          fun a1 a2 l1 l2 u h1 h2 hu1 hu2 => ?_⟩
  have hu1' : u ∈ objectUrls a1 := by
    unfold objectUrls
    rw [h1]
    exact List.mem_append_right _ hu1
  have hu2' : u ∈ objectUrls a2 := by
    unfold objectUrls
    rw [h2]
    exact List.mem_append_right _ hu2
  have hmatch : object_matches a1 a2 = true :=
    (object_matches_iff a1 a2).mpr (Or.inr ⟨u, hu1', hu2'⟩)
  have hstep1 : (add_main_author {} a1).main_content.author = [a1] := by
    simp [add_main_author, mergeEntity_empty]
  refine ⟨?_, ?_, fun x => mem_pyDedupAppend, fun hnd => nodup_pyDedupAppend hnd⟩
  · simp [add_main_author, mergeEntity_empty, List.findIdx?, hmatch]
  · simp [mergeEntity, h1, h2]

theorem c4_identity_matching_witness :
    object_matches { name := some "A", sameAs := some ["u1", "u2"] }
        { name := some "A", sameAs := some ["u1", "u2"] } = true ∧
    (add_main_author (add_main_author {}
        ({ name := some "A", sameAs := some ["u1", "u2"] } : Entity))
        ({ name := some "B", sameAs := some ["u2", "u3"] } : Entity)).main_content.author =
      [mergeEntity { name := some "A", sameAs := some ["u1", "u2"] }
        { name := some "B", sameAs := some ["u2", "u3"] }] ∧
    (mergeEntity ({ name := some "A", sameAs := some ["u1", "u2"] } : Entity)
        { name := some "B", sameAs := some ["u2", "u3"] }).sameAs =
      some (pyDedupAppend ["u1", "u2"] ["u2", "u3"]) :=
  ⟨c4_identity_matching.2.1 { name := some "A", sameAs := some ["u1", "u2"] },
   (c4_identity_matching.2.2.2 _ _ ["u1", "u2"] ["u2", "u3"] "u2" rfl rfl
      (by decide) (by decide)).1,
   (c4_identity_matching.2.2.2 _ _ ["u1", "u2"] ["u2", "u3"] "u2" rfl rfl
      (by decide) (by decide)).2.1⟩

/-- C8: every input byte buffer that does not begin with the literal
`<!doctype` compared case-insensitively is rejected by `parse_unknown`
with `UnrecognizedPreambleError`, producing no result record. -/
theorem c8_unrecognized_preamble (buffer : List Nat) (fuel : Nat) (ext : Collab)
    (h : ParseState.startswithnc { buffer := buffer, start := 0, stop := buffer.length }
           (asciiBytes "<!doctype") = false) :
    parse_bytes fuel ext buffer = .error .unrecognizedPreamble := by
  simp only [parse_bytes, parse_unknown]
  rw [h]
  rfl

theorem c8_unrecognized_preamble_witness :
    parse_bytes 5 collab0 (asciiBytes "<html>") = .error .unrecognizedPreamble :=
  c8_unrecognized_preamble (asciiBytes "<html>") 5 collab0 (by decide)

/-- C9: every token reaching the top-level walker that matches no
extraction rule is appended to `unknown_tokens` as a capture
reproducing its kind, tag, attribute sequence and data verbatim, in
document order (appended at the end), the walker consumes exactly that
one token, and the step succeeds — so unrecognized markup never aborts
the walk, and nothing else in the result record changes. -/
theorem c9_unknown_token_capture (t : SgmlToken) (fuel : Nat) (ext : Collab)
    (data : TokenParseState) (info : Info)
    (hpeek : data.peektoken = some t) (hrule : matchesNoRule t = true) :
    tokenparse_html_toplevel fuel ext data info =
      .ok ({ data with start := data.start + 1 },
           { info with unknown_tokens := info.unknown_tokens ++ [captureOf t] }) := by
  have hlt := peektoken_some_lt hpeek
  have hskip : data.skiptoken = .ok { data with start := data.start + 1 } := by
    unfold TokenParseState.skiptoken
    rw [if_pos hlt]
  simp only [matchesNoRule, Bool.and_eq_true, and_assoc] at hrule
  obtain ⟨hA, hB, hC, hD, hE⟩ := hrule
  have hCc : (t.kind == "decl") = false := by simpa using hC
  have hDc : (t.kind == "comment") = false := by simpa using hD
  by_cases hks : t.kind = "start"
  · rw [if_pos (by simp [hks])] at hA
    simp only [Bool.not_eq_true', Bool.or_eq_false_iff, and_assoc] at hA
    obtain ⟨hH1, hH2, hH3, hH4, hH5, hH6, hH7, hH8, hH9⟩ := hA
    have hcontent : tokenparse_html_content fuel data info = .error .unrecognizedData := by
      unfold tokenparse_html_content
      rw [hpeek]
      simp [hH9]
    have k_end : (t.kind == "end") = false := beq_eq_false_iff_ne.mpr (by rw [hks]; decide)
    have k_data : (t.kind == "data") = false := beq_eq_false_iff_ne.mpr (by rw [hks]; decide)
    unfold tokenparse_html_toplevel
    rw [hpeek]
    simp [hH1, hH2, hH3, hH4, hH5, hH6, hH7, hH8, k_end, k_data, hCc, hDc,
          hcontent, hskip, PyErr.isUnrecognizedData]
    rfl
  · have hks' : (t.kind == "start") = false := beq_eq_false_iff_ne.mpr hks
    have hcontent : tokenparse_html_content fuel data info = .error .unrecognizedData := by
      unfold tokenparse_html_content
      rw [hpeek]
      simp [hks']
    by_cases hke : t.kind = "end"
    · rw [if_pos (by simp [hke])] at hB
      simp only [Bool.not_eq_true', Bool.or_eq_false_iff, and_assoc] at hB
      obtain ⟨hEn1, hEn2, hEn3, hEn4, hEn5⟩ := hB
      have k_data : (t.kind == "data") = false := beq_eq_false_iff_ne.mpr (by rw [hke]; decide)
      unfold tokenparse_html_toplevel
      rw [hpeek]
      simp [hks', hEn1, hEn2, hEn3, hEn4, hEn5, k_data, hCc, hDc,
            hcontent, hskip, PyErr.isUnrecognizedData]
      rfl
    · have k_end : (t.kind == "end") = false := beq_eq_false_iff_ne.mpr hke
      by_cases hkd : t.kind = "data"
      · rw [if_pos (by simp [hkd])] at hE
        cases hd : t.data with
        | none => rw [hd] at hE; simp at hE
        | some s =>
          rw [hd] at hE
          simp only [Bool.not_eq_true'] at hE
          have k_data : (t.kind == "data") = true := by simp [hkd]
          unfold tokenparse_html_toplevel
          rw [hpeek]
          simp [hks', k_end, k_data, hCc, hDc, hd, hE,
                hcontent, hskip, PyErr.isUnrecognizedData]
          rfl
      · have k_data : (t.kind == "data") = false := beq_eq_false_iff_ne.mpr hkd
        unfold tokenparse_html_toplevel
        rw [hpeek]
        simp [hks', k_end, k_data, hCc, hDc,
              hcontent, hskip, PyErr.isUnrecognizedData]
        rfl

theorem c9_unknown_token_capture_witness :
    tokenparse_html_toplevel 5 collab0
      { buffer := [{ kind := "start", tag := some "div", attr_seq := some [], data := none }],
        start := 0, stop := 1 } {} =
      .ok ({ buffer := [{ kind := "start", tag := some "div", attr_seq := some [], data := none }],
             start := 1, stop := 1 },
           { unknown_tokens :=
               [{ kind := "start", tag := some "div", attrs := some [], data := none }] }) :=
  c9_unknown_token_capture
    { kind := "start", tag := some "div", attr_seq := some [], data := none }
    5 collab0
    { buffer := [{ kind := "start", tag := some "div", attr_seq := some [], data := none }],
      start := 0, stop := 1 } {} rfl (by decide)

/-- C7: for every well-formed title element — a `start title` token at
the cursor followed by a data token with text `X` and an `end title`
token — the title extractor succeeds, consumes exactly the three
tokens, and stores `X` stripped of leading and trailing whitespace as
`html.title`, changing nothing else; and in the end-to-end scenario
`<!doctype html><html><head><title> Hi </title></head><body></body>
</html>`, where no stronger title signal exists, the parse yields
`html.title == "Hi"` and `main_content.title == "Hi"`. -/
theorem c7_title_extraction
    (data : TokenParseState) (info : Info) (t2 t3 : SgmlToken) (X : String)
    (h0 : data.start + 2 < data.stop)
    (h1 : data.buffer[data.start + 1]? = some t2)
    (h2k : t2.kind = "data") (h2d : t2.data = some X)
    (h3 : data.buffer[data.start + 2]? = some t3)
    (h3k : t3.kind = "end") (h3t : t3.tag = some "title") :
    tokenparse_html_title data info =
      .ok ({ data with start := data.start + 1 + 1 + 1 },
           { info with html := { info.html with title := some (pyStrip X) } }) ∧
    (parse_bytes 20 collab1 (asciiBytes doc1str)).map
        (fun i => (i.html.title, i.main_content.title)) =
      .ok (some "Hi", some "Hi") := by
  constructor
  · have e1 : data.start < data.stop := by omega
    have e2 : data.start + 1 < data.stop := by omega
    have e4 : data.start + 1 + 1 = data.start + 2 := by omega
    simp [tokenparse_html_title, TokenParseState.skiptoken, TokenParseState.peektoken,
          except_bind_ok, except_bind_error, e1, e2, e4, h0, h1, h2k, h2d, h3, h3k, h3t]
  · rfl

theorem c7_title_extraction_witness :
    tokenparse_html_title { buffer := doc1tokens, start := 3, stop := 10 } {} =
      .ok ({ buffer := doc1tokens, start := 3 + 1 + 1 + 1, stop := 10 },
           { html := { title := some (pyStrip " Hi ") } }) ∧
    (parse_bytes 20 collab1 (asciiBytes doc1str)).map
        (fun i => (i.html.title, i.main_content.title)) = .ok (some "Hi", some "Hi") :=
  c7_title_extraction { buffer := doc1tokens, start := 3, stop := 10 } {}
    { kind := "data", data := some " Hi " } { kind := "end", tag := some "title" } " Hi "
    (by decide) rfl rfl rfl rfl rfl rfl

/-- C10 (implicit): a script element whose `type` ends with `+json` and
whose content fails JSON decoding raises a `json.JSONDecodeError`
inside the script extractor; that error is not a `ParseError`, so it
escapes the walker's `except ParseError` recovery handler and aborts
the entire token parse with no partial result, instead of being
appended to `errors` and skipped. -/
theorem c10_json_decode_escape (fuel : Nat) (ext : Collab) (T S : String)
    (data : TokenParseState) (info : Info)
    (hT : pyEndsWith T "+json" = true) (hS : ext.jsonLoads S = none)
    (h0 : data.start + 2 < data.stop)
    (hg1 : data.buffer[data.start]? =
      some { kind := "start", tag := some "script", attr_seq := some [("type", T)], data := none })
    (hg2 : data.buffer[data.start + 1]? =
      some { kind := "data", tag := none, attr_seq := none, data := some S })
    (hg3 : data.buffer[data.start + 2]? =
      some { kind := "end", tag := some "script", attr_seq := none, data := none }) :
    tokenparse_html_toplevel fuel ext data info = .error .jsonDecodeError ∧
    tokenparse_html (fuel + 1) ext data info = .error .jsonDecodeError := by
  have e1 : data.start < data.stop := by omega
  have e2 : data.start + 1 < data.stop := by omega
  have e4 : data.start + 1 + 1 = data.start + 2 := by omega
  have hscript : tokenparse_html_script ext data info = .error .jsonDecodeError := by
    simp [tokenparse_html_script, TokenParseState.skiptoken, TokenParseState.peektoken,
          except_bind_ok, except_bind_error, e1, e2, e4, h0, hg1, hg2, hg3, buildScript, hT, hS]
  have htop : tokenparse_html_toplevel fuel ext data info = .error .jsonDecodeError := by
    have hpeek : data.peektoken =
        some { kind := "start", tag := some "script", attr_seq := some [("type", T)], data := none } := by
      simp [TokenParseState.peektoken, e1, hg1]
    unfold tokenparse_html_toplevel
    rw [hpeek]
    simp [hscript, PyErr.isParseError]
  refine ⟨htop, ?_⟩
  unfold tokenparse_html tokenparse_html_loop
  rw [if_pos e1, htop]
  rfl

theorem c10_json_decode_escape_witness :
    tokenparse_html_toplevel 7 collab0
      { buffer := [{ kind := "start", tag := some "script",
                     attr_seq := some [("type", "application/ld+json")], data := none },
                   { kind := "data", tag := none, attr_seq := none, data := some "oops" },
                   { kind := "end", tag := some "script", attr_seq := none, data := none }],
        start := 0, stop := 3 } {} = .error .jsonDecodeError ∧
    tokenparse_html 8 collab0
      { buffer := [{ kind := "start", tag := some "script",
                     attr_seq := some [("type", "application/ld+json")], data := none },
                   { kind := "data", tag := none, attr_seq := none, data := some "oops" },
                   { kind := "end", tag := some "script", attr_seq := none, data := none }],
        start := 0, stop := 3 } {} = .error .jsonDecodeError :=
  c10_json_decode_escape 7 collab0 "application/ld+json" "oops"
    { buffer := [{ kind := "start", tag := some "script",
                   attr_seq := some [("type", "application/ld+json")], data := none },
                 { kind := "data", tag := none, attr_seq := none, data := some "oops" },
                 { kind := "end", tag := some "script", attr_seq := none, data := none }],
      start := 0, stop := 3 } {} (by decide) rfl (by decide) rfl rfl rfl
